import Mathlib

/-!
Verification of the CloudPath PowerCenter-migration core against its design
specification.  The definitions below are a shallow embedding of the
TypeScript sources:

* `src/server/powercenter-service.ts` — protocol adapters, pmrep output
  parsers, `calculateComplexity`, `assessMigrationComplexity`,
  `startRealTimeSync`;
* `src/server/index.ts` (routes section) — the discover / assess /
  start-sync endpoints and the object classification performed there;
* `src/client/src/lib/utils.ts` (storage section) — `MemStorage`
  (`createMigrationProject`, `bulkCreatePowerCenterObjects`,
  `updateSyncStatus`).

JavaScript strings are modelled as Lean `String`s; the string methods the
code uses (`split`, `trim`, `includes`) are re-implemented by structural
recursion on the character list so that concrete runs are kernel-evaluable.
JavaScript numbers are modelled as `ℚ` (all numbers in the program are
exact small rationals), `Math.round`/`Math.ceil` as `⌊· + 1/2⌋` / `⌈·⌉`,
and the IEEE `NaN` produced by `0/0` as `Option.none` at the single place
it can arise.
-/

/-! ## JavaScript string and number primitives -/

/-- `String.prototype.split` with a one-character separator, on the
underlying character list.  Mirrors JS semantics: `n + 1` fields for `n`
separators, empty fields preserved. -/
def splitOnCharList (sep : Char) : List Char → List (List Char)
  | [] => [[]]
  | c :: rest =>
    match splitOnCharList sep rest with
    | [] => [[]]
    | cur :: parts =>
      if c = sep then [] :: cur :: parts else (c :: cur) :: parts

/-- JS `s.split(sep)` for a one-character separator. -/
def jsSplit (s : String) (sep : Char) : List String :=
  (splitOnCharList sep s.data).map String.mk

/-- JS `s.trim()`: drop whitespace from both ends. -/
def jsTrim (s : String) : String :=
  String.mk (((s.data.dropWhile Char.isWhitespace).reverse.dropWhile
    Char.isWhitespace).reverse)

/-- Whether `pat` occurs at the head of `l`. -/
def charListHasPre : List Char → List Char → Bool
  | [], _ => true
  | _ :: _, [] => false
  | p :: ps, c :: cs => p = c && charListHasPre ps cs

/-- Whether `pat` occurs somewhere inside `l`. -/
def charListHasSub (pat : List Char) : List Char → Bool
  | [] => pat.isEmpty
  | c :: rest => charListHasPre pat (c :: rest) || charListHasSub pat rest

/-- JS `s.includes(sub)`. -/
def jsIncludes (s sub : String) : Bool :=
  charListHasSub sub.data s.data

/-- JS `Math.round`: round half toward positive infinity. -/
def jsRound (q : ℚ) : ℤ := ⌊q + 1 / 2⌋

/-- JS `Math.ceil`. -/
def jsCeil (q : ℚ) : ℤ := ⌈q⌉

/-! ## Data model (`src/shared/schema.ts` and the service interfaces) -/

/-- Structural complexity tier of a discovered object. -/
inductive Complexity where
  | SIMPLE
  | MEDIUM
  | COMPLEX
deriving DecidableEq, Repr

/-- Migration-automation status of a discovered object. -/
inductive MigStatus where
  | FULLY_AUTO
  | PARTIAL
  | MANUAL_REDESIGN
deriving DecidableEq, Repr

/-- `RepositoryConnection` (fields used by the core). -/
structure RepositoryConnection where
  id : String
  name : String
  hostname : String
  port : Nat
  repositoryName : String
  username : String
  connectionType : String
  isActive : Bool
deriving DecidableEq, Repr

/-- Raw workflow record returned by the REST endpoint (`wf` in
`getWorkflowsViaRest`); `none` models an absent JSON field, which the
code defaults with `|| []` or reads as `undefined` in
`calculateComplexity`. -/
structure RawWorkflow where
  name : String
  folder : String
  isValid : Bool
  sessions : Option (List String)
  dependencies : Option (List String)
deriving DecidableEq, Repr

/-- Raw mapping record returned by the REST endpoint. -/
structure RawMapping where
  name : String
  folder : String
  transformations : Option (List String)
  sources : Option (List String)
  targets : Option (List String)
deriving DecidableEq, Repr

/-- Raw session record returned by the REST endpoint. -/
structure RawSession where
  name : String
  folder : String
  mappingName : String
  sessionType : String
deriving DecidableEq, Repr

/-- Raw transformation record returned by the REST endpoint. -/
structure RawTransformation where
  name : String
  folder : String
  type : String
  mappingName : String
  expressions : Option (List String)
deriving DecidableEq, Repr

/-- Raw source record returned by the REST endpoint. -/
structure RawSource where
  name : String
  folder : String
  type : String
  connectionName : String
deriving DecidableEq, Repr

/-- Raw target record returned by the REST endpoint. -/
structure RawTarget where
  name : String
  folder : String
  type : String
  connectionName : String
deriving DecidableEq, Repr

/-- The opaque `metadata: any` attached to each normalized object: either
the raw REST record or `{ rawOutput: line }` from the pmrep parsers. -/
inductive PCMeta where
  | restWorkflow (w : RawWorkflow)
  | restMapping (m : RawMapping)
  | restSession (s : RawSession)
  | restTransformation (t : RawTransformation)
  | restSource (s : RawSource)
  | restTarget (t : RawTarget)
  | rawOutput (line : String)
deriving DecidableEq, Repr

/-- `PowerCenterWorkflow` from `powercenter-service.ts`. -/
structure PowerCenterWorkflow where
  name : String
  folder : String
  isValid : Bool
  sessions : List String
  dependencies : List String
  complexity : Complexity
  metadata : PCMeta
deriving DecidableEq, Repr

/-- `PowerCenterMapping` from `powercenter-service.ts`. -/
structure PowerCenterMapping where
  name : String
  folder : String
  transformations : List String
  sources : List String
  targets : List String
  complexity : Complexity
  metadata : PCMeta
deriving DecidableEq, Repr

/-- `PowerCenterSession` from `powercenter-service.ts`. -/
structure PowerCenterSession where
  name : String
  folder : String
  mappingName : String
  sessionType : String
  metadata : PCMeta
deriving DecidableEq, Repr

/-- `PowerCenterTransformation` from `powercenter-service.ts`. -/
structure PowerCenterTransformation where
  name : String
  folder : String
  type : String
  mappingName : String
  expressions : List String
  metadata : PCMeta
deriving DecidableEq, Repr

/-- `PowerCenterSource` from `powercenter-service.ts`. -/
structure PowerCenterSource where
  name : String
  folder : String
  type : String
  connectionName : String
  metadata : PCMeta
deriving DecidableEq, Repr

/-- `PowerCenterTarget` from `powercenter-service.ts`. -/
structure PowerCenterTarget where
  name : String
  folder : String
  type : String
  connectionName : String
  metadata : PCMeta
deriving DecidableEq, Repr

/-- `PowerCenterDiscoveryResult`. -/
structure PowerCenterDiscoveryResult where
  workflows : List PowerCenterWorkflow
  mappings : List PowerCenterMapping
  sessions : List PowerCenterSession
  transformations : List PowerCenterTransformation
  sources : List PowerCenterSource
  targets : List PowerCenterTarget
deriving DecidableEq, Repr

/-! ## `calculateComplexity` and the REST normalizers -/

/-- The argument of `calculateComplexity` is an arbitrary raw record;
only these three (possibly absent) list fields are read, each as
`object.field?.length || 0`. -/
structure ComplexityParts where
  transformations : Option (List String)
  sessions : Option (List String)
  dependencies : Option (List String)

/-- `PowerCenterService.calculateComplexity`. -/
def calculateComplexity (object : ComplexityParts) : Complexity :=
  let componentCount := (object.transformations.getD []).length +
    (object.sessions.getD []).length + (object.dependencies.getD []).length
  if componentCount = 0 then .SIMPLE
  else if componentCount ≤ 5 then .MEDIUM
  else .COMPLEX

/-- Normalization of one raw workflow inside `getWorkflowsViaRest`. -/
def workflowFromRest (wf : RawWorkflow) : PowerCenterWorkflow :=
  { name := wf.name
    folder := wf.folder
    isValid := wf.isValid
    sessions := wf.sessions.getD []
    dependencies := wf.dependencies.getD []
    complexity := calculateComplexity
      { transformations := none, sessions := wf.sessions,
        dependencies := wf.dependencies }
    metadata := .restWorkflow wf }

/-- Normalization of one raw mapping inside `getMappingsViaRest`. -/
def mappingFromRest (m : RawMapping) : PowerCenterMapping :=
  { name := m.name
    folder := m.folder
    transformations := m.transformations.getD []
    sources := m.sources.getD []
    targets := m.targets.getD []
    complexity := calculateComplexity
      { transformations := m.transformations, sessions := none,
        dependencies := none }
    metadata := .restMapping m }

/-- Normalization of one raw session inside `getSessionsViaRest`. -/
def sessionFromRest (s : RawSession) : PowerCenterSession :=
  { name := s.name, folder := s.folder, mappingName := s.mappingName,
    sessionType := s.sessionType, metadata := .restSession s }

/-- Normalization of one raw transformation inside
`getTransformationsViaRest`. -/
def transformationFromRest (t : RawTransformation) : PowerCenterTransformation :=
  { name := t.name, folder := t.folder, type := t.type,
    mappingName := t.mappingName, expressions := t.expressions.getD [],
    metadata := .restTransformation t }

/-- Normalization of one raw source inside `getSourcesViaRest`. -/
def sourceFromRest (s : RawSource) : PowerCenterSource :=
  { name := s.name, folder := s.folder, type := s.type,
    connectionName := s.connectionName, metadata := .restSource s }

/-- Normalization of one raw target inside `getTargetsViaRest`. -/
def targetFromRest (t : RawTarget) : PowerCenterTarget :=
  { name := t.name, folder := t.folder, type := t.type,
    connectionName := t.connectionName, metadata := .restTarget t }

/-! ## REST discovery (`discoverRepositoryViaRest`)

The HTTP world is abstracted into what each endpoint answers on this run:
`authToken = none` models a non-ok `/auth/login` response (the code then
throws `Authentication failed`); for each object-kind endpoint, `none`
models a non-ok response, for which the corresponding
`get<Kind>sViaRest` returns `[]`. -/

structure RestEnv where
  authToken : Option String
  workflows : Option (List RawWorkflow)
  mappings : Option (List RawMapping)
  sessions : Option (List RawSession)
  transformations : Option (List RawTransformation)
  sources : Option (List RawSource)
  targets : Option (List RawTarget)

/-- `getWorkflowsViaRest`: `[]` on a non-ok response, else the normalized
records. -/
def getWorkflowsViaRest (env : RestEnv) : List PowerCenterWorkflow :=
  (env.workflows.getD []).map workflowFromRest

/-- `getMappingsViaRest`. -/
def getMappingsViaRest (env : RestEnv) : List PowerCenterMapping :=
  (env.mappings.getD []).map mappingFromRest

/-- `getSessionsViaRest`. -/
def getSessionsViaRest (env : RestEnv) : List PowerCenterSession :=
  (env.sessions.getD []).map sessionFromRest

/-- `getTransformationsViaRest`. -/
def getTransformationsViaRest (env : RestEnv) : List PowerCenterTransformation :=
  (env.transformations.getD []).map transformationFromRest

/-- `getSourcesViaRest`. -/
def getSourcesViaRest (env : RestEnv) : List PowerCenterSource :=
  (env.sources.getD []).map sourceFromRest

/-- `getTargetsViaRest`. -/
def getTargetsViaRest (env : RestEnv) : List PowerCenterTarget :=
  (env.targets.getD []).map targetFromRest

/-- `discoverRepositoryViaRest`: a failed authentication throws, which
the surrounding `catch` re-wraps into the message below; otherwise the
six per-kind reads are fanned out and collected into one payload. -/
def discoverRepositoryViaRest (env : RestEnv) :
    Except String PowerCenterDiscoveryResult :=
  match env.authToken with
  | none => .error "REST API discovery failed: Authentication failed"
  | some _ => .ok
      { workflows := getWorkflowsViaRest env
        mappings := getMappingsViaRest env
        sessions := getSessionsViaRest env
        transformations := getTransformationsViaRest env
        sources := getSourcesViaRest env
        targets := getTargetsViaRest env }

/-! ## pmrep output parsers (`parsePmrepWorkflowOutput`,
`parsePmrepMappingOutput`) -/

/-- One iteration of the loop in `parsePmrepWorkflowOutput`: lines
mentioning `workflow` with at least three tab-separated fields become
records; everything else is dropped. -/
def parsePmrepWorkflowLine (line : String) : Option PowerCenterWorkflow :=
  if jsIncludes line "workflow" then
    let parts := jsSplit line '\t'
    if parts.length ≥ 3 then
      some { name := jsTrim (parts.getD 0 "")
             folder := jsTrim (parts.getD 1 "")
             isValid := jsTrim (parts.getD 2 "") == "valid"
             sessions := []
             dependencies := []
             complexity := .MEDIUM
             metadata := .rawOutput line }
    else none
  else none

/-- `parsePmrepWorkflowOutput`: split on newlines, keep non-blank lines,
parse each. -/
def parsePmrepWorkflowOutput (output : String) : List PowerCenterWorkflow :=
  ((jsSplit output '\n').filter (fun line => jsTrim line != "")).filterMap
    parsePmrepWorkflowLine

/-- One iteration of the loop in `parsePmrepMappingOutput`. -/
def parsePmrepMappingLine (line : String) : Option PowerCenterMapping :=
  if jsIncludes line "mapping" then
    let parts := jsSplit line '\t'
    if parts.length ≥ 2 then
      some { name := jsTrim (parts.getD 0 "")
             folder := jsTrim (parts.getD 1 "")
             transformations := []
             sources := []
             targets := []
             complexity := .MEDIUM
             metadata := .rawOutput line }
    else none
  else none

/-- `parsePmrepMappingOutput`. -/
def parsePmrepMappingOutput (output : String) : List PowerCenterMapping :=
  ((jsSplit output '\n').filter (fun line => jsTrim line != "")).filterMap
    parsePmrepMappingLine

/-! ## Assessment aggregator (`assessMigrationComplexity`) -/

/-- The aggregator receives `objects: any[]`; it reads `object.type`,
`object.name` and `object.expressions`.  `none` models an absent field
(as on the persisted objects the assess route feeds it). -/
structure AssessObj where
  name : String
  type : Option String
  expressions : Option (List String)
deriving DecidableEq, Repr

/-- `object.expressions?.some(expr => expr.includes('DECODE'))`,
coerced to a boolean (an absent list yields `undefined`, which is
falsy). -/
def hasDecodeExpression (object : AssessObj) : Bool :=
  (object.expressions.getD []).any (fun expr => jsIncludes expr "DECODE")

/-- One iteration of the aggregator loop: unsupported-subtype check,
then complex-expression check, threading the running score and issue
list. -/
def assessStep (acc : ℚ × List String) (object : AssessObj) : ℚ × List String :=
  let acc1 :=
    if object.type = some "XML_PARSER" then
      (acc.1, acc.2 ++ ["Unsupported transformation: " ++ object.name ++ " (XML Parser)"])
    else if object.type = some "MQSERIES" then
      (acc.1, acc.2 ++ ["Unsupported transformation: " ++ object.name ++ " (MQSeries)"])
    else
      (acc.1 + 1, acc.2)
  if hasDecodeExpression object then
    (acc1.1 - 1 / 2,
     acc1.2 ++ ["Complex expression requiring manual conversion: " ++ object.name])
  else acc1

/-- The final `automationScore` of the aggregator loop. -/
def automationScoreOf (objects : List AssessObj) : ℚ :=
  (objects.foldl assessStep (0, [])).1

/-- Return shape of `assessMigrationComplexity`. -/
structure AssessmentOutput where
  complexity : String
  automationCoverage : ℤ
  issues : List String
deriving DecidableEq, Repr

/-- `assessMigrationComplexity`: coverage is clamped at 0 and compared
unrounded against the 80/50 tier thresholds; the returned coverage is
`Math.round`ed. -/
def assessMigrationComplexity (objects : List AssessObj) : AssessmentOutput :=
  let folded := objects.foldl assessStep (0, [])
  let totalObjects := objects.length
  let automationCoverage : ℚ :=
    if totalObjects > 0 then max 0 (folded.1 / (totalObjects : ℚ) * 100) else 0
  let complexity :=
    if automationCoverage > 80 then "SIMPLE"
    else if automationCoverage > 50 then "MEDIUM"
    else "COMPLEX"
  { complexity := complexity
    automationCoverage := jsRound automationCoverage
    issues := folded.2 }

/-- `estimatedEffort: Math.ceil(objects.length * 2)` from the assess
route. -/
def assessEstimatedEffort (objects : List AssessObj) : ℤ :=
  jsCeil ((objects.length : ℚ) * 2)

/-! ## Discover route: classification into `PowerCenterObject` inserts
(`allObjects` in `POST /api/migration-projects/:id/discover`) -/

/-- An element of the `allObjects` array built by the discover route
(an `InsertPowerCenterObject`). -/
structure PCObjectInsert where
  projectId : String
  objectName : String
  objectType : String
  folderName : String
  complexity : Complexity
  migrationStatus : MigStatus
  automationCoverage : ℤ
  dependencies : List String
  metadata : PCMeta
deriving DecidableEq, Repr

/-- Classification of one discovered workflow by the discover route. -/
def workflowToObject (projectId : String) (wf : PowerCenterWorkflow) : PCObjectInsert :=
  { projectId
    objectName := wf.name
    objectType := "WORKFLOW"
    folderName := wf.folder
    complexity := wf.complexity
    migrationStatus := .FULLY_AUTO
    automationCoverage := 85
    dependencies := wf.dependencies
    metadata := wf.metadata }

/-- Classification of one discovered mapping. -/
def mappingToObject (projectId : String) (m : PowerCenterMapping) : PCObjectInsert :=
  { projectId
    objectName := m.name
    objectType := "MAPPING"
    folderName := m.folder
    complexity := m.complexity
    migrationStatus := .FULLY_AUTO
    automationCoverage := 90
    dependencies := []
    metadata := m.metadata }

/-- Classification of one discovered session. -/
def sessionToObject (projectId : String) (s : PowerCenterSession) : PCObjectInsert :=
  { projectId
    objectName := s.name
    objectType := "SESSION"
    folderName := s.folder
    complexity := .SIMPLE
    migrationStatus := .FULLY_AUTO
    automationCoverage := 95
    dependencies := []
    metadata := s.metadata }

/-- Classification of one discovered transformation: only the
`XML_PARSER` subtype is sent to manual redesign. -/
def transformationToObject (projectId : String) (t : PowerCenterTransformation) :
    PCObjectInsert :=
  { projectId
    objectName := t.name
    objectType := "TRANSFORMATION"
    folderName := t.folder
    complexity := .MEDIUM
    migrationStatus := if t.type = "XML_PARSER" then .MANUAL_REDESIGN else .PARTIAL
    automationCoverage := if t.type = "XML_PARSER" then 20 else 75
    dependencies := []
    metadata := t.metadata }

/-- Classification of one discovered source. -/
def sourceToObject (projectId : String) (s : PowerCenterSource) : PCObjectInsert :=
  { projectId
    objectName := s.name
    objectType := "SOURCE"
    folderName := s.folder
    complexity := .SIMPLE
    migrationStatus := .FULLY_AUTO
    automationCoverage := 95
    dependencies := []
    metadata := s.metadata }

/-- Classification of one discovered target. -/
def targetToObject (projectId : String) (t : PowerCenterTarget) : PCObjectInsert :=
  { projectId
    objectName := t.name
    objectType := "TARGET"
    folderName := t.folder
    complexity := .SIMPLE
    migrationStatus := .FULLY_AUTO
    automationCoverage := 95
    dependencies := []
    metadata := t.metadata }

/-- `allObjects` from the discover route: the concatenation of the six
per-kind classification maps. -/
def allObjects (projectId : String) (r : PowerCenterDiscoveryResult) :
    List PCObjectInsert :=
  r.workflows.map (workflowToObject projectId)
  ++ r.mappings.map (mappingToObject projectId)
  ++ r.sessions.map (sessionToObject projectId)
  ++ r.transformations.map (transformationToObject projectId)
  ++ r.sources.map (sourceToObject projectId)
  ++ r.targets.map (targetToObject projectId)

/-- The list of objects the discover route persists: the route's `catch`
skips `bulkCreatePowerCenterObjects` entirely on a discovery error, so
nothing is persisted for that run. -/
def discoverRoutePersistedRest (projectId : String) (env : RestEnv) :
    List PCObjectInsert :=
  match discoverRepositoryViaRest env with
  | .error _ => []
  | .ok r => allObjects projectId r

/-! ## Storage (`MemStorage`) -/

/-- `InsertMigrationProject` payload: the zod insert schema keeps the
status and counter fields, so a caller may supply values for them. -/
structure InsertMigrationProject where
  name : String
  description : Option String
  repositoryConnectionId : String
  status : String
  autoMigrationPercentage : Option ℤ
  totalObjects : ℤ
  migratedObjects : ℤ
deriving DecidableEq, Repr

/-- A stored `MigrationProject`.  `autoMigrationPercentage` is an
`Option ℤ` because the discover route can store the JS `NaN` (modelled
`none`) into it. -/
structure MigrationProjectRecord where
  id : String
  name : String
  description : Option String
  repositoryConnectionId : String
  status : String
  autoMigrationPercentage : Option ℤ
  totalObjects : ℤ
  migratedObjects : ℤ
  createdAt : Nat
  updatedAt : Nat
deriving DecidableEq, Repr

/-- `MemStorage.createMigrationProject`: the payload is spread first and
then `status`/`autoMigrationPercentage`/`totalObjects`/`migratedObjects`
are overwritten with their fixed initial values, so any values supplied
in the payload for those fields are discarded.  The generated id and the
`new Date()` timestamps are passed in. -/
def createMigrationProject (project : InsertMigrationProject) (id : String)
    (now : Nat) : MigrationProjectRecord :=
  { id
    name := project.name
    description := project.description
    repositoryConnectionId := project.repositoryConnectionId
    status := "DISCOVERY"
    autoMigrationPercentage := some 0
    totalObjects := 0
    migratedObjects := 0
    createdAt := now
    updatedAt := now }

/-- A stored `PowerCenterObject` (`{...object, id, lastScanned}`). -/
structure PowerCenterObjectStored extends PCObjectInsert where
  id : String
  lastScanned : Nat
deriving DecidableEq, Repr

/-- `MemStorage.createPowerCenterObject`. -/
def createPowerCenterObject (object : PCObjectInsert) (id : String)
    (now : Nat) : PowerCenterObjectStored :=
  { toPCObjectInsert := object, id, lastScanned := now }

/-- `MemStorage.bulkCreatePowerCenterObjects`: one `createPowerCenterObject`
per insert, in order, appended to the store.  `mkId` abstracts the
`generateId` calls (one fresh id per already-stored object count). -/
def bulkCreatePowerCenterObjects (store : List PowerCenterObjectStored)
    (objects : List PCObjectInsert) (mkId : Nat → String) (now : Nat) :
    List PowerCenterObjectStored :=
  match objects with
  | [] => store
  | object :: rest =>
    bulkCreatePowerCenterObjects
      (store ++ [createPowerCenterObject object (mkId store.length) now])
      rest mkId now

/-! ## Discover route statistics -/

/-- `allObjects.filter(obj => obj.migrationStatus === 'FULLY_AUTO').length`. -/
def fullyAutoCount (objects : List PCObjectInsert) : Nat :=
  (objects.filter (fun o => o.migrationStatus == MigStatus.FULLY_AUTO)).length

/-- The `autoMigrationPercentage` computed by the discover route:
`Math.round((fullyAuto / totalObjects) * 100)`.  When `totalObjects = 0`
the JS division is `0 / 0 = NaN` and `Math.round(NaN) = NaN`; `none`
models that `NaN`. -/
def autoMigrationPercentageOf (objects : List PCObjectInsert) : Option ℤ :=
  if objects.length = 0 then none
  else some (jsRound ((fullyAutoCount objects : ℚ) / (objects.length : ℚ) * 100))

/-- The project update issued at the end of a successful discover run
(`status: 'ASSESSMENT', totalObjects, autoMigrationPercentage`). -/
def applyDiscoverStats (p : MigrationProjectRecord)
    (objects : List PCObjectInsert) (now : Nat) : MigrationProjectRecord :=
  { p with
    status := "ASSESSMENT"
    totalObjects := (objects.length : ℤ)
    autoMigrationPercentage := autoMigrationPercentageOf objects
    updatedAt := now }

/-! ## Sync status and the start-sync route -/

/-- A stored `SyncStatus` record. -/
structure SyncStatusRecord where
  id : String
  projectId : String
  lastSyncTime : Nat
  syncType : String
  status : String
  itemsProcessed : ℤ
  errors : Option (List String)
deriving DecidableEq, Repr

/-- `MemStorage.updateSyncStatus` specialised to the patch the start-sync
route sends (`{syncType, status, itemsProcessed}`): defaults are built
first, then overridden by the existing record if any, then by the patch. -/
def updateSyncStatusStart (existing : Option SyncStatusRecord)
    (projectId newId : String) (now : Nat) (syncType status : String)
    (itemsProcessed : ℤ) : SyncStatusRecord :=
  match existing with
  | none =>
    { id := newId
      projectId
      lastSyncTime := now
      syncType
      status
      itemsProcessed
      errors := none }
  | some e =>
    { e with
      syncType := syncType
      status := status
      itemsProcessed := itemsProcessed }

/-- The server state touched by the start-sync route.  `syncTasks` lists
the background polling tasks spawned so far (one entry per
`startRealTimeSync` call, tagged with its project id): the service
unconditionally creates a fresh `setInterval` each time it is called. -/
structure ServerState where
  migrationProjects : List MigrationProjectRecord
  repositoryConnections : List RepositoryConnection
  syncStatuses : List SyncStatusRecord
  syncTasks : List String
deriving DecidableEq, Repr

/-- `storage.getMigrationProject`. -/
def findMigrationProject (st : ServerState) (id : String) :
    Option MigrationProjectRecord :=
  st.migrationProjects.find? (fun p => p.id == id)

/-- `storage.getRepositoryConnection`. -/
def findRepositoryConnection (st : ServerState) (id : String) :
    Option RepositoryConnection :=
  st.repositoryConnections.find? (fun c => c.id == id)

/-- `storage.getSyncStatus`. -/
def findSyncStatus (st : ServerState) (projectId : String) :
    Option SyncStatusRecord :=
  st.syncStatuses.find? (fun s => s.projectId == projectId)

/-- Replace (upsert) the one sync-status record of `rec.projectId`. -/
def setSyncStatus (st : ServerState) (rec : SyncStatusRecord) : ServerState :=
  { st with syncStatuses :=
      (st.syncStatuses.filter (fun s => s.projectId != rec.projectId)) ++ [rec] }

/-- `POST /api/migration-projects/:id/start-sync`: look up the project
and its connection (404 on either miss), call
`powerCenterService.startRealTimeSync` — which always registers a new
polling interval, with no check of the current sync status — then upsert
the sync status to `INCREMENTAL`/`SYNCING`/`itemsProcessed: 0` and
answer 200. -/
def startSyncRoute (st : ServerState) (projectId : String) (now : Nat)
    (newId : String) : ServerState × Nat :=
  match findMigrationProject st projectId with
  | none => (st, 404)
  | some p =>
    match findRepositoryConnection st p.repositoryConnectionId with
    | none => (st, 404)
    | some _ =>
      let st1 : ServerState := { st with syncTasks := st.syncTasks ++ [projectId] }
      let rec1 := updateSyncStatusStart (findSyncStatus st1 projectId) projectId
        newId now "INCREMENTAL" "SYNCING" 0
      (setSyncStatus st1 rec1, 200)

/-! ## pmrep discovery as an async program
(`discoverRepositoryViaPmrep`)

To settle the ordering claim about the six `pmrep listobjects` calls,
the control structure of `discoverRepositoryViaPmrep` is embedded as a
small async-program syntax with a trace semantics: `runCmd` is one
`execAsync` invocation, `andThen` is `await`-sequencing, and `parAll` is
`Promise.all`, whose components' event traces may interleave
arbitrarily. -/

/-- Issue / completion events of one external command. -/
inductive PEvent where
  | start (cmd : String)
  | finish (cmd : String)
deriving DecidableEq, Repr

/-- Async program skeletons. -/
inductive AsyncProg where
  | runCmd (cmd : String)
  | andThen (p q : AsyncProg)
  | parAll (ps : List AsyncProg)
deriving Repr

/-- `Shuffle l r t`: `t` is an interleaving of `l` and `r` (both appear
in order). -/
inductive Shuffle : List PEvent → List PEvent → List PEvent → Prop
  | nil : Shuffle [] [] []
  | left {x l r t} : Shuffle l r t → Shuffle (x :: l) r (x :: t)
  | right {y l r t} : Shuffle l r t → Shuffle l (y :: r) (y :: t)

/-- Trace semantics: `runCmd` starts and then finishes; `andThen` runs
to completion before its continuation; `parAll` interleaves its
components' traces. -/
inductive HasTrace : AsyncProg → List PEvent → Prop
  | runCmd (c : String) : HasTrace (.runCmd c) [.start c, .finish c]
  | andThen {p q t u} : HasTrace p t → HasTrace q u → HasTrace (.andThen p q) (t ++ u)
  | parNil : HasTrace (.parAll []) []
  | parCons {p ps t u v} : HasTrace p t → HasTrace (.parAll ps) u →
      Shuffle t u v → HasTrace (.parAll (p :: ps)) v

/-- `a` completes (occurs) strictly before `b` occurs in `t`. -/
def completesBeforeB (a b : PEvent) : List PEvent → Bool
  | [] => false
  | x :: rest => (decide (x = a) && decide (b ∈ rest)) || completesBeforeB a b rest

/-- The `pmrep connect` command issued by `connectPmrep`. -/
def pmrepConnectCmd (connection : RepositoryConnection) : String :=
  "pmrep connect -r " ++ connection.repositoryName ++ " -h " ++
    connection.hostname ++ " -o " ++ toString connection.port ++ " -n " ++
    connection.username

/-- The `pmrep listobjects` command for one object kind. -/
def pmrepListCmd (kind : String) : String :=
  "pmrep listobjects -o " ++ kind ++ " -t all"

/-- The six object kinds listed by `discoverRepositoryViaPmrep`, in
source order. -/
def pmrepObjectKinds : List String :=
  ["workflow", "mapping", "session", "transformation", "source", "target"]

/-- The control skeleton of `discoverRepositoryViaPmrep`: `await
connectPmrep(...)`, then `Promise.all` of the six per-kind getters, each
of which issues one `pmrep listobjects` command. -/
def discoverRepositoryViaPmrepProg (connection : RepositoryConnection) :
    AsyncProg :=
  .andThen (.runCmd (pmrepConnectCmd connection))
    (.parAll (pmrepObjectKinds.map (fun kind => .runCmd (pmrepListCmd kind))))

/-! ## Concrete sample data used by the verification -/

/-- A discovery payload with all six kind lists empty. -/
def emptyDiscoveryResult : PowerCenterDiscoveryResult :=
  { workflows := [], mappings := [], sessions := [], transformations := [],
    sources := [], targets := [] }

/-- A transformation of the external-messaging-queue subtype. -/
def mqTransformation : PowerCenterTransformation :=
  { name := "T_MQ_Reader", folder := "FolderA", type := "MQSERIES",
    mappingName := "m_load", expressions := [],
    metadata := .rawOutput "T_MQ_Reader\tFolderA\tMQSERIES\tm_load" }

/-- A discovery payload holding only `mqTransformation`. -/
def mqOnlyDiscoveryResult : PowerCenterDiscoveryResult :=
  { workflows := [], mappings := [], sessions := [],
    transformations := [mqTransformation], sources := [], targets := [] }

/-- A transformation of the XML-parsing subtype. -/
def xmlTransformation : PowerCenterTransformation :=
  { name := "T_XML_Parse", folder := "FolderA", type := "XML_PARSER",
    mappingName := "m_load", expressions := [],
    metadata := .rawOutput "T_XML_Parse\tFolderA\tXML_PARSER\tm_load" }

/-- A discovery payload holding only `xmlTransformation`. -/
def xmlOnlyDiscoveryResult : PowerCenterDiscoveryResult :=
  { workflows := [], mappings := [], sessions := [],
    transformations := [xmlTransformation], sources := [], targets := [] }

/-- A raw REST workflow record with one session. -/
def sampleRawWorkflow : RawWorkflow :=
  { name := "wf_load", folder := "FolderA", isValid := true,
    sessions := some ["s_load"], dependencies := none }

/-- A normalized workflow as produced by the REST adapter. -/
def sampleWorkflow : PowerCenterWorkflow :=
  workflowFromRest sampleRawWorkflow

/-- A discovery payload holding only `sampleWorkflow`. -/
def wfOnlyDiscoveryResult : PowerCenterDiscoveryResult :=
  { workflows := [sampleWorkflow], mappings := [], sessions := [],
    transformations := [], sources := [], targets := [] }

/-- A raw REST mapping record. -/
def sampleRawMapping : RawMapping :=
  { name := "m_load", folder := "FolderA", transformations := some ["T1"],
    sources := some ["SRC"], targets := none }

/-- A REST run whose authentication call fails. -/
def restEnvAuthFail : RestEnv :=
  { authToken := none, workflows := some [], mappings := some [sampleRawMapping],
    sessions := some [], transformations := some [], sources := some [],
    targets := some [] }

/-- A REST run with a valid token whose workflows read fails while the
mappings read succeeds. -/
def restEnvWorkflowsFail : RestEnv :=
  { authToken := some "tok-1", workflows := none,
    mappings := some [sampleRawMapping], sessions := some [],
    transformations := some [], sources := some [], targets := some [] }

/-- Assessment input: a transformation object of the XML-parsing
subtype, no expressions. -/
def xmlAssessObj : AssessObj :=
  { name := "T_XML_Parse", type := some "XML_PARSER", expressions := none }

/-- Assessment input: a mapping object (no `type` field, no
expressions), as the assess route reads it back from storage. -/
def mappingAssessObj1 : AssessObj :=
  { name := "m_load_a", type := none, expressions := none }

/-- A second mapping assessment input. -/
def mappingAssessObj2 : AssessObj :=
  { name := "m_load_b", type := none, expressions := none }

/-- A pmrep `listobjects -o workflow` output line: three tab-separated
fields mentioning `workflow`. -/
def pmrepSampleWorkflowLine : String := "wf_load_workflow\tFolderA\tvalid"

/-- The workflow record parsed from `pmrepSampleWorkflowLine`. -/
def pmrepSampleWorkflow : PowerCenterWorkflow :=
  { name := "wf_load_workflow", folder := "FolderA", isValid := true,
    sessions := [], dependencies := [], complexity := .MEDIUM,
    metadata := .rawOutput pmrepSampleWorkflowLine }

/-- A pmrep `listobjects -o mapping` output line. -/
def pmrepSampleMappingLine : String := "m_load_mapping\tFolderA"

/-- The mapping record parsed from `pmrepSampleMappingLine`. -/
def pmrepSampleMapping : PowerCenterMapping :=
  { name := "m_load_mapping", folder := "FolderA", transformations := [],
    sources := [], targets := [], complexity := .MEDIUM,
    metadata := .rawOutput pmrepSampleMappingLine }

/-- A pmrep connection. -/
def sampleConnection : RepositoryConnection :=
  { id := "c2", name := "CLI repo", hostname := "pc-server-01", port := 6005,
    repositoryName := "PC_REPO", username := "admin",
    connectionType := "PMREP", isActive := true }

/-- A trace of `discoverRepositoryViaPmrepProg sampleConnection` in which
the mapping list command is issued before the workflow list command
completes. -/
def pmrepInterleavedTrace : List PEvent :=
  [.start (pmrepConnectCmd sampleConnection),
   .finish (pmrepConnectCmd sampleConnection),
   .start (pmrepListCmd "workflow"),
   .start (pmrepListCmd "mapping"),
   .finish (pmrepListCmd "workflow"),
   .finish (pmrepListCmd "mapping"),
   .start (pmrepListCmd "session"), .finish (pmrepListCmd "session"),
   .start (pmrepListCmd "transformation"), .finish (pmrepListCmd "transformation"),
   .start (pmrepListCmd "source"), .finish (pmrepListCmd "source"),
   .start (pmrepListCmd "target"), .finish (pmrepListCmd "target")]

/-- A project whose sync is already running. -/
def sampleProject : MigrationProjectRecord :=
  { id := "p1", name := "Customer Data Migration",
    description := some "Migrate customer workflows to cloud",
    repositoryConnectionId := "c1", status := "ASSESSMENT",
    autoMigrationPercentage := some 85, totalObjects := 15,
    migratedObjects := 3, createdAt := 0, updatedAt := 0 }

/-- The REST connection referenced by `sampleProject`. -/
def sampleRestConnection : RepositoryConnection :=
  { id := "c1", name := "Production PowerCenter", hostname := "pc-server-01",
    port := 6005, repositoryName := "PC_REPO", username := "admin",
    connectionType := "REST_API", isActive := true }

/-- A sync-status record that is currently `SYNCING` with five items
already processed. -/
def syncingStatusRecord : SyncStatusRecord :=
  { id := "s1"
    projectId := "p1"
    lastSyncTime := 0
    syncType := "INCREMENTAL"
    status := "SYNCING"
    itemsProcessed := 5
    errors := none }

/-- A server state in which `sampleProject`'s sync status is already
`SYNCING` and one background sync task is running for it. -/
def syncingState : ServerState :=
  { migrationProjects := [sampleProject]
    repositoryConnections := [sampleRestConnection]
    syncStatuses := [syncingStatusRecord]
    syncTasks := ["p1"] }

/-! ## General lemmas -/

/-- Elements of `bulkCreatePowerCenterObjects` either were already
stored or stem from one of the inserts. -/
theorem mem_bulkCreatePowerCenterObjects
    {store : List PowerCenterObjectStored} {objects : List PCObjectInsert}
    {mkId : Nat → String} {now : Nat} {s : PowerCenterObjectStored}
    (h : s ∈ bulkCreatePowerCenterObjects store objects mkId now) :
    s ∈ store ∨ ∃ o ∈ objects, ∃ id, s = createPowerCenterObject o id now := by
  induction objects generalizing store with
  | nil => exact Or.inl h
  | cons o rest ih =>
    rcases ih h with h1 | h2
    · rcases List.mem_append.mp h1 with h3 | h4
      · exact Or.inl h3
      · exact Or.inr ⟨o, List.mem_cons_self o rest, mkId store.length,
          List.mem_singleton.mp h4⟩
    · obtain ⟨o1, ho1, id, rfl⟩ := h2
      exact Or.inr ⟨o1, List.mem_cons_of_mem o ho1, id, rfl⟩

/-- The coverage/status invariant holds for every object built by the
discover-route classification. -/
theorem allObjects_coverage_invariant {projectId : String}
    {r : PowerCenterDiscoveryResult} {o : PCObjectInsert}
    (h : o ∈ allObjects projectId r) :
    (o.migrationStatus = MigStatus.FULLY_AUTO → 80 ≤ o.automationCoverage) ∧
    (o.migrationStatus = MigStatus.MANUAL_REDESIGN → o.automationCoverage ≤ 30) := by
  simp only [allObjects] at h
  rcases List.mem_append.mp h with h | h
  case inr =>
    obtain ⟨t, _, rfl⟩ := List.mem_map.mp h
    exact ⟨fun _ => by norm_num [targetToObject],
      fun hc => by simp [targetToObject] at hc⟩
  rcases List.mem_append.mp h with h | h
  case inr =>
    obtain ⟨s, _, rfl⟩ := List.mem_map.mp h
    exact ⟨fun _ => by norm_num [sourceToObject],
      fun hc => by simp [sourceToObject] at hc⟩
  rcases List.mem_append.mp h with h | h
  case inr =>
    obtain ⟨t, _, rfl⟩ := List.mem_map.mp h
    by_cases ht : t.type = "XML_PARSER"
    · refine ⟨fun hc => ?_, fun _ => ?_⟩
      · simp [transformationToObject, ht] at hc
      · norm_num [transformationToObject, ht]
    · refine ⟨fun hc => ?_, fun hc => ?_⟩
      · simp [transformationToObject, ht] at hc
      · simp [transformationToObject, ht] at hc
  rcases List.mem_append.mp h with h | h
  case inr =>
    obtain ⟨s, _, rfl⟩ := List.mem_map.mp h
    exact ⟨fun _ => by norm_num [sessionToObject],
      fun hc => by simp [sessionToObject] at hc⟩
  rcases List.mem_append.mp h with h | h
  case inr =>
    obtain ⟨m, _, rfl⟩ := List.mem_map.mp h
    exact ⟨fun _ => by norm_num [mappingToObject],
      fun hc => by simp [mappingToObject] at hc⟩
  obtain ⟨w, _, rfl⟩ := List.mem_map.mp h
  exact ⟨fun _ => by norm_num [workflowToObject],
    fun hc => by simp [workflowToObject] at hc⟩

/-! ## Claim C1 -/

/-- Claim C1: every discovered object created and persisted by the
discovery pipeline satisfies the classifier invariant — a `FULLY_AUTO`
object carries automation coverage at least 80 and a `MANUAL_REDESIGN`
object carries automation coverage at most 30. -/
theorem discovery_persisted_coverage_invariant
    (projectId : String) (r : PowerCenterDiscoveryResult)
    (mkId : Nat → String) (now : Nat) (s : PowerCenterObjectStored)
    (h : s ∈ bulkCreatePowerCenterObjects [] (allObjects projectId r) mkId now) :
    (s.migrationStatus = MigStatus.FULLY_AUTO → 80 ≤ s.automationCoverage) ∧
    (s.migrationStatus = MigStatus.MANUAL_REDESIGN → s.automationCoverage ≤ 30) := by
  rcases mem_bulkCreatePowerCenterObjects h with h1 | ⟨o, ho, id, rfl⟩
  · exact absurd h1 (List.not_mem_nil s)
  · exact allObjects_coverage_invariant ho

/-- Witness for C1: a concrete one-workflow discovery run. -/
theorem discovery_persisted_coverage_invariant_witness :
    80 ≤ (createPowerCenterObject (workflowToObject "p1" sampleWorkflow) "id-0"
      0).automationCoverage :=
  (discovery_persisted_coverage_invariant "p1" wfOnlyDiscoveryResult
    (fun _ => "id-0") 0 _ (by simp [bulkCreatePowerCenterObjects, allObjects,
      wfOnlyDiscoveryResult])).1 rfl

/-! ## Claim C10 -/

/-- Claim C10: storage-level project creation forces status `DISCOVERY`
and zeroed statistics regardless of the supplied payload values, while
preserving the payload's name, description and connection reference. -/
theorem createMigrationProject_resets_controlled_fields
    (project : InsertMigrationProject) (id : String) (now : Nat) :
    (createMigrationProject project id now).status = "DISCOVERY" ∧
    (createMigrationProject project id now).autoMigrationPercentage = some 0 ∧
    (createMigrationProject project id now).totalObjects = 0 ∧
    (createMigrationProject project id now).migratedObjects = 0 ∧
    (createMigrationProject project id now).name = project.name ∧
    (createMigrationProject project id now).description = project.description ∧
    (createMigrationProject project id now).repositoryConnectionId =
      project.repositoryConnectionId :=
  ⟨rfl, rfl, rfl, rfl, rfl, rfl, rfl⟩

/-! ## Claim C5 -/

/-- Claim C5 (code bug): on an empty discovery payload the route builds
no objects and persists none, and the project's `totalObjects` is
updated to 0 — but `autoMigrationPercentage` is computed as
`Math.round((0 / 0) * 100) = NaN` (modelled `none`), not 0, and that
`NaN` is what the project stats read back. -/
theorem discover_empty_payload_stats
    (projectId : String) (p : MigrationProjectRecord) (now : Nat)
    (store : List PowerCenterObjectStored) (mkId : Nat → String) :
    allObjects projectId emptyDiscoveryResult = [] ∧
    bulkCreatePowerCenterObjects store (allObjects projectId emptyDiscoveryResult)
      mkId now = store ∧
    (applyDiscoverStats p (allObjects projectId emptyDiscoveryResult) now).totalObjects
      = 0 ∧
    (applyDiscoverStats p (allObjects projectId emptyDiscoveryResult)
      now).autoMigrationPercentage = none ∧
    (applyDiscoverStats p (allObjects projectId emptyDiscoveryResult)
      now).autoMigrationPercentage ≠ some 0 :=
  ⟨rfl, rfl, rfl, rfl, by simp [applyDiscoverStats, autoMigrationPercentageOf,
    allObjects, emptyDiscoveryResult]⟩

/-! ## Claim C6 -/

/-- Evaluation of the aggregator on an empty object set. -/
theorem assessMigrationComplexity_nil_eval :
    (assessMigrationComplexity []).automationCoverage = 0 ∧
    (assessMigrationComplexity []).complexity = "COMPLEX" := by
  constructor
  · norm_num [assessMigrationComplexity, jsRound]
  · norm_num [assessMigrationComplexity]

/-- Counterexample to C6 as stated: with zero objects the aggregator
does return coverage 0, but its tier ladder (`>80` / `>50` / else)
yields `COMPLEX`, not `SIMPLE`. -/
theorem assess_zero_objects_not_simple :
    (assessMigrationComplexity []).automationCoverage = 0 ∧
    (assessMigrationComplexity []).complexity ≠ "SIMPLE" := by
  obtain ⟨h1, h2⟩ := assessMigrationComplexity_nil_eval
  exact ⟨h1, by rw [h2]; decide⟩

/-- Claim C6 as amended: for every project with an empty discovered
object set, the aggregator returns coverage 0 and tier `COMPLEX`. -/
theorem assess_zero_objects_tier (objects : List AssessObj)
    (h : objects = []) :
    (assessMigrationComplexity objects).automationCoverage = 0 ∧
    (assessMigrationComplexity objects).complexity = "COMPLEX" := by
  subst h
  exact assessMigrationComplexity_nil_eval

/-- Witness for the amended C6. -/
theorem assess_zero_objects_tier_witness :
    (assessMigrationComplexity []).automationCoverage = 0 ∧
    (assessMigrationComplexity []).complexity = "COMPLEX" :=
  assess_zero_objects_tier [] rfl

/-! ## Claim C4 -/

/-- Counterexample to C4 as stated: an `MQSERIES` (external messaging
queue) transformation is in the spec's known-unsupported set, yet the
discover route classifies it `PARTIAL` with coverage 75, not
`MANUAL_REDESIGN` with coverage 20 — only `XML_PARSER` is checked. -/
theorem mqseries_transformation_not_redesigned :
    allObjects "p1" mqOnlyDiscoveryResult =
      [transformationToObject "p1" mqTransformation] ∧
    (transformationToObject "p1" mqTransformation).migrationStatus =
      MigStatus.PARTIAL ∧
    (transformationToObject "p1" mqTransformation).automationCoverage = 75 ∧
    ¬ ((transformationToObject "p1" mqTransformation).migrationStatus =
        MigStatus.MANUAL_REDESIGN ∧
       (transformationToObject "p1" mqTransformation).automationCoverage = 20) := by
  refine ⟨rfl, ?_, ?_, ?_⟩ <;> decide

/-- Claim C4 as amended: during normalization a transformation is
classified `MANUAL_REDESIGN` with coverage 20 exactly when its subtype
is `XML_PARSER`; every other transformation (including the
external-messaging-queue subtype `MQSERIES`) gets `PARTIAL` with
coverage 75.  The classified object is part of the discover route's
`allObjects`. -/
theorem transformation_classification_rule
    (projectId : String) (t : PowerCenterTransformation)
    (r : PowerCenterDiscoveryResult) (hmem : t ∈ r.transformations) :
    transformationToObject projectId t ∈ allObjects projectId r ∧
    (t.type = "XML_PARSER" →
      (transformationToObject projectId t).migrationStatus =
        MigStatus.MANUAL_REDESIGN ∧
      (transformationToObject projectId t).automationCoverage = 20) ∧
    (t.type ≠ "XML_PARSER" →
      (transformationToObject projectId t).migrationStatus = MigStatus.PARTIAL ∧
      (transformationToObject projectId t).automationCoverage = 75) := by
  refine ⟨?_, fun ht => ?_, fun ht => ?_⟩
  · simp only [allObjects]
    refine List.mem_append.mpr (Or.inl ?_)
    refine List.mem_append.mpr (Or.inl ?_)
    refine List.mem_append.mpr (Or.inr ?_)
    exact List.mem_map_of_mem (transformationToObject projectId) hmem
  · constructor <;> simp [transformationToObject, ht]
  · constructor <;> simp [transformationToObject, ht]

/-- Witness for the amended C4: the `XML_PARSER` branch on a concrete
one-transformation discovery. -/
theorem transformation_classification_rule_witness :
    transformationToObject "p1" xmlTransformation ∈
      allObjects "p1" xmlOnlyDiscoveryResult ∧
    (transformationToObject "p1" xmlTransformation).migrationStatus =
      MigStatus.MANUAL_REDESIGN ∧
    (transformationToObject "p1" xmlTransformation).automationCoverage = 20 := by
  obtain ⟨h1, h2, _⟩ := transformation_classification_rule "p1" xmlTransformation
    xmlOnlyDiscoveryResult (by simp [xmlOnlyDiscoveryResult])
  exact ⟨h1, h2 rfl⟩

/-! ## Claim C2 -/

/-- Claim C2: on three objects — one transformation of the unsupported
XML-parsing subtype and two mappings, none with a legacy-only (DECODE)
expression — the aggregator scores `0 + 1 + 1 = 2`, reports coverage
`round(2/3*100) = 67` and tier `MEDIUM`, and the assess route estimates
`ceil(3*2) = 6` hours of effort. -/
theorem assess_three_object_example
    (t m1 m2 : AssessObj)
    (ht : t.type = some "XML_PARSER")
    (hm1x : m1.type ≠ some "XML_PARSER") (hm1q : m1.type ≠ some "MQSERIES")
    (hm2x : m2.type ≠ some "XML_PARSER") (hm2q : m2.type ≠ some "MQSERIES")
    (hdt : hasDecodeExpression t = false)
    (hd1 : hasDecodeExpression m1 = false)
    (hd2 : hasDecodeExpression m2 = false) :
    automationScoreOf [t, m1, m2] = 2 ∧
    (assessMigrationComplexity [t, m1, m2]).automationCoverage = 67 ∧
    (assessMigrationComplexity [t, m1, m2]).complexity = "MEDIUM" ∧
    assessEstimatedEffort [t, m1, m2] = 6 := by
  have hs : (List.foldl assessStep ((0 : ℚ), ([] : List String)) [t, m1, m2]).1 = 2 := by
    simp [List.foldl, assessStep, ht, hm1x, hm1q, hm2x, hm2q, hdt, hd1, hd2]
    norm_num
  refine ⟨hs, ?_, ?_, ?_⟩
  · simp only [assessMigrationComplexity, hs, List.length_cons, List.length_nil]
    norm_num [jsRound, Int.floor_eq_iff]
  · simp only [assessMigrationComplexity, hs, List.length_cons, List.length_nil]
    norm_num
  · norm_num [assessEstimatedEffort, jsCeil]

/-- Witness for C2: concrete XML transformation and two mapping
objects. -/
theorem assess_three_object_example_witness :
    automationScoreOf [xmlAssessObj, mappingAssessObj1, mappingAssessObj2] = 2 ∧
    (assessMigrationComplexity
      [xmlAssessObj, mappingAssessObj1, mappingAssessObj2]).automationCoverage = 67 ∧
    (assessMigrationComplexity
      [xmlAssessObj, mappingAssessObj1, mappingAssessObj2]).complexity = "MEDIUM" ∧
    assessEstimatedEffort [xmlAssessObj, mappingAssessObj1, mappingAssessObj2] = 6 :=
  assess_three_object_example xmlAssessObj mappingAssessObj1 mappingAssessObj2
    rfl (by decide) (by decide) (by decide) (by decide) rfl rfl rfl

/-! ## Claim C3 -/

/-- Every workflow record produced by the pmrep parser carries the
hard-coded `MEDIUM` tier and empty session/dependency lists. -/
theorem parsePmrepWorkflowOutput_fixed_medium {output : String}
    {w : PowerCenterWorkflow} (h : w ∈ parsePmrepWorkflowOutput output) :
    w.complexity = Complexity.MEDIUM ∧ w.sessions = [] ∧ w.dependencies = [] := by
  simp only [parsePmrepWorkflowOutput, List.mem_filterMap] at h
  obtain ⟨line, _, hparse⟩ := h
  simp only [parsePmrepWorkflowLine] at hparse
  split at hparse
  · split at hparse
    · obtain rfl := Option.some.inj hparse
      exact ⟨rfl, rfl, rfl⟩
    · exact absurd hparse (by simp)
  · exact absurd hparse (by simp)

/-- Every mapping record produced by the pmrep parser carries the
hard-coded `MEDIUM` tier and an empty transformation list. -/
theorem parsePmrepMappingOutput_fixed_medium {output : String}
    {m : PowerCenterMapping} (h : m ∈ parsePmrepMappingOutput output) :
    m.complexity = Complexity.MEDIUM ∧ m.transformations = [] := by
  simp only [parsePmrepMappingOutput, List.mem_filterMap] at h
  obtain ⟨line, _, hparse⟩ := h
  simp only [parsePmrepMappingLine] at hparse
  split at hparse
  · split at hparse
    · obtain rfl := Option.some.inj hparse
      exact ⟨rfl, rfl⟩
    · exact absurd hparse (by simp)
  · exact absurd hparse (by simp)

/-- Counterexample to C3 as stated: a CLI-discovered workflow record
whose transformation/session/dependency count is 0 is nonetheless
normalized with tier `MEDIUM`, not `SIMPLE` — the sum rule is not
applied on the pmrep path. -/
theorem pmrep_workflow_zero_components_not_simple :
    parsePmrepWorkflowOutput pmrepSampleWorkflowLine = [pmrepSampleWorkflow] ∧
    pmrepSampleWorkflow.sessions.length + pmrepSampleWorkflow.dependencies.length
      = 0 ∧
    pmrepSampleWorkflow.complexity ≠ Complexity.SIMPLE := by
  refine ⟨by decide, rfl, by decide⟩

/-- Claim C3 as amended: the sum rule (`SIMPLE` at 0, `MEDIUM` up to 5,
`COMPLEX` above) governs workflow and mapping normalization on the REST
path via `calculateComplexity`, while the CLI (pmrep) parsers assign the
fixed tier `MEDIUM` to every workflow and mapping they produce. -/
theorem complexity_rule_per_adapter
    (wf : RawWorkflow) (m : RawMapping) (output1 output2 : String)
    (w : PowerCenterWorkflow) (mp : PowerCenterMapping)
    (hw : w ∈ parsePmrepWorkflowOutput output1)
    (hm : mp ∈ parsePmrepMappingOutput output2) :
    ((workflowFromRest wf).complexity =
      if (wf.sessions.getD []).length + (wf.dependencies.getD []).length = 0
      then Complexity.SIMPLE
      else if (wf.sessions.getD []).length + (wf.dependencies.getD []).length ≤ 5
      then Complexity.MEDIUM else Complexity.COMPLEX) ∧
    ((mappingFromRest m).complexity =
      if (m.transformations.getD []).length = 0 then Complexity.SIMPLE
      else if (m.transformations.getD []).length ≤ 5 then Complexity.MEDIUM
      else Complexity.COMPLEX) ∧
    w.complexity = Complexity.MEDIUM ∧
    mp.complexity = Complexity.MEDIUM := by
  refine ⟨?_, ?_, (parsePmrepWorkflowOutput_fixed_medium hw).1,
    (parsePmrepMappingOutput_fixed_medium hm).1⟩
  · simp [workflowFromRest, calculateComplexity]
  · simp [mappingFromRest, calculateComplexity]

/-- Witness for the amended C3. -/
theorem complexity_rule_per_adapter_witness :
    (workflowFromRest sampleRawWorkflow).complexity = Complexity.MEDIUM ∧
    pmrepSampleWorkflow.complexity = Complexity.MEDIUM := by
  obtain ⟨h1, _, h3, _⟩ := complexity_rule_per_adapter
    sampleRawWorkflow sampleRawMapping
    pmrepSampleWorkflowLine pmrepSampleMappingLine
    pmrepSampleWorkflow pmrepSampleMapping
    (by decide) (by decide)
  exact ⟨by rw [h1]; decide, h3⟩

/-! ## Claim C7 -/

/-- Claim C7: in a REST discovery, a failed authentication fails the
whole run as a connection-level error and nothing is persisted, whereas
a failed individual object-kind read only empties that kind's list: the
run still succeeds, each kind being normalized from whatever its own
endpoint answered. -/
theorem rest_discovery_error_isolation (env : RestEnv) (projectId : String) :
    (env.authToken = none →
      discoverRepositoryViaRest env =
        .error "REST API discovery failed: Authentication failed" ∧
      discoverRoutePersistedRest projectId env = []) ∧
    (∀ token, env.authToken = some token →
      ∃ r, discoverRepositoryViaRest env = .ok r ∧
        discoverRoutePersistedRest projectId env = allObjects projectId r ∧
        r.workflows = (env.workflows.getD []).map workflowFromRest ∧
        r.mappings = (env.mappings.getD []).map mappingFromRest ∧
        r.sessions = (env.sessions.getD []).map sessionFromRest ∧
        r.transformations =
          (env.transformations.getD []).map transformationFromRest ∧
        r.sources = (env.sources.getD []).map sourceFromRest ∧
        r.targets = (env.targets.getD []).map targetFromRest ∧
        (env.workflows = none → r.workflows = []) ∧
        (env.mappings = none → r.mappings = []) ∧
        (env.sessions = none → r.sessions = []) ∧
        (env.transformations = none → r.transformations = []) ∧
        (env.sources = none → r.sources = []) ∧
        (env.targets = none → r.targets = [])) := by
  constructor
  · intro h
    constructor
    · simp [discoverRepositoryViaRest, h]
    · simp [discoverRoutePersistedRest, discoverRepositoryViaRest, h]
  · intro token h
    refine ⟨⟨getWorkflowsViaRest env, getMappingsViaRest env,
      getSessionsViaRest env, getTransformationsViaRest env,
      getSourcesViaRest env, getTargetsViaRest env⟩,
      ?_, ?_, rfl, rfl, rfl, rfl, rfl, rfl, ?_, ?_, ?_, ?_, ?_, ?_⟩
    · simp [discoverRepositoryViaRest, h]
    · simp [discoverRoutePersistedRest, discoverRepositoryViaRest, h]
    · intro hw; simp [getWorkflowsViaRest, hw]
    · intro hm; simp [getMappingsViaRest, hm]
    · intro hs; simp [getSessionsViaRest, hs]
    · intro ht; simp [getTransformationsViaRest, ht]
    · intro hs; simp [getSourcesViaRest, hs]
    · intro ht; simp [getTargetsViaRest, ht]

/-- Witness for C7: one run with failed authentication, one run with a
valid token but a failed workflows read. -/
theorem rest_discovery_error_isolation_witness :
    discoverRepositoryViaRest restEnvAuthFail =
      .error "REST API discovery failed: Authentication failed" ∧
    discoverRoutePersistedRest "p1" restEnvAuthFail = [] ∧
    (∃ r, discoverRepositoryViaRest restEnvWorkflowsFail = .ok r ∧
      r.workflows = [] ∧ r.mappings = [mappingFromRest sampleRawMapping]) := by
  obtain ⟨h1, h2⟩ := (rest_discovery_error_isolation restEnvAuthFail "p1").1 rfl
  obtain ⟨r, hok, _, _, hmaps, _, _, _, _, hwnone, _⟩ :=
    (rest_discovery_error_isolation restEnvWorkflowsFail "p1").2 "tok-1" rfl
  exact ⟨h1, h2, r, hok, hwnone rfl, by rw [hmaps]; rfl⟩

/-! ## Claim C9 -/

/-- The start-sync patch always forces `SYNCING` with a reset
items-processed counter, whatever the existing record held. -/
theorem updateSyncStatusStart_forces_syncing
    (existing : Option SyncStatusRecord) (projectId newId : String) (now : Nat) :
    (updateSyncStatusStart existing projectId newId now "INCREMENTAL" "SYNCING"
      0).status = "SYNCING" ∧
    (updateSyncStatusStart existing projectId newId now "INCREMENTAL" "SYNCING"
      0).itemsProcessed = 0 := by
  cases existing <;> exact ⟨rfl, rfl⟩

/-- Counterexample to C9 as stated: in a state whose sync status is
already `SYNCING` with one task running, a start-sync call spawns a
second background task and rewrites the status record (items processed
reset from 5 to 0) — it is not a no-op. -/
theorem start_sync_while_syncing_spawns_second_task :
    findSyncStatus syncingState "p1" = some syncingStatusRecord ∧
    syncingStatusRecord.status = "SYNCING" ∧
    syncingState.syncTasks = ["p1"] ∧
    (startSyncRoute syncingState "p1" 1 "s2").1.syncTasks = ["p1", "p1"] ∧
    (startSyncRoute syncingState "p1" 1 "s2").1 ≠ syncingState := by
  refine ⟨?_, rfl, rfl, ?_, ?_⟩ <;> decide

/-- After an upsert, looking the record's project up finds exactly the
upserted record: the filter removed every other record of that
project. -/
theorem find_filter_ne_append (l : List SyncStatusRecord)
    (rec : SyncStatusRecord) (pid : String) (hrec : rec.projectId = pid) :
    ((l.filter (fun s => s.projectId != rec.projectId)) ++ [rec]).find?
      (fun s => s.projectId == pid) = some rec := by
  subst hrec
  induction l with
  | nil => simp
  | cons s rest ih =>
    by_cases hs : s.projectId == rec.projectId
    · simp only [List.filter_cons, bne, hs, Bool.not_true, ite_false]
      exact ih
    · simp only [List.filter_cons, bne, hs, Bool.not_false, ite_true,
        List.cons_append, List.find?_cons, hs]
      exact ih

/-- The record built by the start-sync upsert belongs to the requested
project. -/
theorem updateSyncStatusStart_projectId (st : ServerState)
    (projectId newId : String) (now : Nat) (syncType status : String)
    (itemsProcessed : ℤ) :
    (updateSyncStatusStart (findSyncStatus st projectId) projectId newId now
      syncType status itemsProcessed).projectId = projectId := by
  unfold updateSyncStatusStart findSyncStatus
  cases hfind : st.syncStatuses.find? (fun s => s.projectId == projectId) with
  | none => rfl
  | some e =>
    have h2 := List.find?_some hfind
    simpa [beq_iff_eq] using h2

/-- Claim C9 as amended: the start-sync route performs no check of the
current sync status — whenever the project and its connection exist, it
unconditionally registers one more background sync task (so a second
call while `SYNCING` spawns a duplicate), upserts the status to
`SYNCING` with `itemsProcessed` 0, and answers 200. -/
theorem start_sync_always_spawns_task
    (st : ServerState) (projectId : String) (now : Nat) (newId : String)
    (p : MigrationProjectRecord) (c : RepositoryConnection)
    (hp : findMigrationProject st projectId = some p)
    (hc : findRepositoryConnection st p.repositoryConnectionId = some c) :
    (startSyncRoute st projectId now newId).2 = 200 ∧
    (startSyncRoute st projectId now newId).1.syncTasks =
      st.syncTasks ++ [projectId] ∧
    ∃ rec, findSyncStatus (startSyncRoute st projectId now newId).1 projectId
        = some rec ∧
      rec.status = "SYNCING" ∧ rec.itemsProcessed = 0 := by
  have hpid := updateSyncStatusStart_projectId
    { st with syncTasks := st.syncTasks ++ [projectId] }
    projectId newId now "INCREMENTAL" "SYNCING" 0
  unfold startSyncRoute
  simp only [hp, hc]
  refine ⟨trivial, rfl, ?_⟩
  refine ⟨updateSyncStatusStart
    (findSyncStatus { st with syncTasks := st.syncTasks ++ [projectId] } projectId)
    projectId newId now "INCREMENTAL" "SYNCING" 0, ?_, ?_⟩
  · exact find_filter_ne_append st.syncStatuses _ projectId hpid
  · exact updateSyncStatusStart_forces_syncing _ _ _ _

/-- Witness for the amended C9: applied to the already-`SYNCING`
state. -/
theorem start_sync_always_spawns_task_witness :
    (startSyncRoute syncingState "p1" 1 "s2").2 = 200 ∧
    (startSyncRoute syncingState "p1" 1 "s2").1.syncTasks =
      syncingState.syncTasks ++ ["p1"] ∧
    ∃ rec, findSyncStatus (startSyncRoute syncingState "p1" 1 "s2").1 "p1"
        = some rec ∧
      rec.status = "SYNCING" ∧ rec.itemsProcessed = 0 :=
  start_sync_always_spawns_task syncingState "p1" 1 "s2" sampleProject
    sampleRestConnection (by decide) (by decide)

/-! ## Claim C8 -/

/-- The empty list shuffles trivially on the left. -/
theorem shuffle_nil_left (t : List PEvent) : Shuffle [] t t := by
  induction t with
  | nil => exact Shuffle.nil
  | cons y r ih => exact Shuffle.right ih

/-- Plain concatenation is one particular interleaving. -/
theorem shuffle_append (l r : List PEvent) : Shuffle l r (l ++ r) := by
  induction l with
  | nil => simpa using shuffle_nil_left r
  | cons x l ih => exact Shuffle.left ih

/-- An interleaving contains every event of both sides. -/
theorem shuffle_mem {l r t : List PEvent} (h : Shuffle l r t) (x : PEvent)
    (hx : x ∈ l ∨ x ∈ r) : x ∈ t := by
  induction h with
  | nil => rcases hx with hx | hx <;> exact absurd hx (List.not_mem_nil x)
  | left _ ih =>
    rcases hx with hx | hx
    · rcases List.mem_cons.mp hx with rfl | hx
      · exact List.mem_cons_self _ _
      · exact List.mem_cons_of_mem _ (ih (Or.inl hx))
    · exact List.mem_cons_of_mem _ (ih (Or.inr hx))
  | right _ ih =>
    rcases hx with hx | hx
    · exact List.mem_cons_of_mem _ (ih (Or.inl hx))
    · rcases List.mem_cons.mp hx with rfl | hx
      · exact List.mem_cons_self _ _
      · exact List.mem_cons_of_mem _ (ih (Or.inr hx))

/-- In every trace of a `parAll`, each component command's start event
occurs. -/
theorem parAll_runCmd_start_mem :
    ∀ {ps : List AsyncProg} {t : List PEvent},
      HasTrace (.parAll ps) t → ∀ {c : String},
      AsyncProg.runCmd c ∈ ps → PEvent.start c ∈ t := by
  intro ps
  induction ps with
  | nil =>
    intro t _ c hc
    exact absurd hc (List.not_mem_nil _)
  | cons p rest ih =>
    intro t h c hc
    cases h with
    | parCons h1 h2 hs =>
      rcases List.mem_cons.mp hc with rfl | hmem
      · cases h1
        exact shuffle_mem hs _ (Or.inl (List.mem_cons_self _ _))
      · exact shuffle_mem hs _ (Or.inr (ih h2 hmem))

/-- The interleaved trace really is a trace of the pmrep discovery
program. -/
theorem hasTrace_pmrepInterleavedTrace :
    HasTrace (discoverRepositoryViaPmrepProg sampleConnection)
      pmrepInterleavedTrace := by
  show HasTrace _ ([.start (pmrepConnectCmd sampleConnection),
    .finish (pmrepConnectCmd sampleConnection)] ++
    [.start (pmrepListCmd "workflow"), .start (pmrepListCmd "mapping"),
     .finish (pmrepListCmd "workflow"), .finish (pmrepListCmd "mapping"),
     .start (pmrepListCmd "session"), .finish (pmrepListCmd "session"),
     .start (pmrepListCmd "transformation"),
     .finish (pmrepListCmd "transformation"),
     .start (pmrepListCmd "source"), .finish (pmrepListCmd "source"),
     .start (pmrepListCmd "target"), .finish (pmrepListCmd "target")])
  refine HasTrace.andThen (HasTrace.runCmd _) ?_
  refine HasTrace.parCons (HasTrace.runCmd (pmrepListCmd "workflow")) ?_
    (Shuffle.left (Shuffle.right (Shuffle.left (shuffle_nil_left _))))
  refine HasTrace.parCons (HasTrace.runCmd (pmrepListCmd "mapping")) ?_
    (shuffle_append [.start (pmrepListCmd "mapping"),
      .finish (pmrepListCmd "mapping")] _)
  refine HasTrace.parCons (HasTrace.runCmd (pmrepListCmd "session")) ?_
    (shuffle_append [.start (pmrepListCmd "session"),
      .finish (pmrepListCmd "session")] _)
  refine HasTrace.parCons (HasTrace.runCmd (pmrepListCmd "transformation")) ?_
    (shuffle_append [.start (pmrepListCmd "transformation"),
      .finish (pmrepListCmd "transformation")] _)
  refine HasTrace.parCons (HasTrace.runCmd (pmrepListCmd "source")) ?_
    (shuffle_append [.start (pmrepListCmd "source"),
      .finish (pmrepListCmd "source")] _)
  refine HasTrace.parCons (HasTrace.runCmd (pmrepListCmd "target")) HasTrace.parNil
    (shuffle_append [.start (pmrepListCmd "target"),
      .finish (pmrepListCmd "target")] [])

/-- Counterexample to C8 as stated: it is not the case that in every
execution of the pmrep discovery the workflow list command completes
before the mapping list command is issued — the six getters are fanned
out through `Promise.all`, so a trace exists in which the mapping
command starts while the workflow command is still running. -/
theorem pmrep_list_commands_not_sequential :
    ¬ (∀ t, HasTrace (discoverRepositoryViaPmrepProg sampleConnection) t →
        completesBeforeB (.finish (pmrepListCmd "workflow"))
          (.start (pmrepListCmd "mapping")) t = true) := by
  intro h
  have hfalse := h pmrepInterleavedTrace hasTrace_pmrepInterleavedTrace
  have : completesBeforeB (.finish (pmrepListCmd "workflow"))
      (.start (pmrepListCmd "mapping")) pmrepInterleavedTrace = false := by decide
  rw [this] at hfalse
  exact Bool.false_ne_true hfalse

/-- Claim C8 as amended: the connect command does complete before any of
the six list commands is issued, but the list commands themselves are
fanned out in parallel (`Promise.all`), not sequentially: a trace exists
in which the mapping list command starts before the workflow list
command finishes. -/
theorem pmrep_connect_first_lists_parallel :
    (∀ (connection : RepositoryConnection) (t : List PEvent),
      HasTrace (discoverRepositoryViaPmrepProg connection) t →
      ∀ kind ∈ pmrepObjectKinds,
        completesBeforeB (.finish (pmrepConnectCmd connection))
          (.start (pmrepListCmd kind)) t = true) ∧
    (∃ t, HasTrace (discoverRepositoryViaPmrepProg sampleConnection) t ∧
      completesBeforeB (.start (pmrepListCmd "mapping"))
        (.finish (pmrepListCmd "workflow")) t = true) := by
  constructor
  · intro connection t h kind hkind
    cases h with
    | andThen h1 h2 =>
      cases h1
      have hb : PEvent.start (pmrepListCmd kind) ∈ _ :=
        parAll_runCmd_start_mem h2
          (List.mem_map_of_mem (fun k => AsyncProg.runCmd (pmrepListCmd k)) hkind)
      simp [List.cons_append, List.nil_append, completesBeforeB, hb]
  · exact ⟨pmrepInterleavedTrace, hasTrace_pmrepInterleavedTrace, by decide⟩

/-- Witness for the amended C8: on the concrete interleaved trace, the
connect command completes before the workflow list command is issued. -/
theorem pmrep_connect_first_lists_parallel_witness :
    completesBeforeB (.finish (pmrepConnectCmd sampleConnection))
      (.start (pmrepListCmd "workflow")) pmrepInterleavedTrace = true :=
  pmrep_connect_first_lists_parallel.1 sampleConnection pmrepInterleavedTrace
    hasTrace_pmrepInterleavedTrace "workflow" (by decide)
